import Mathlib

/-!
# Verification of `oro_product.py` (oro-product-manager)

A shallow embedding of the payload builder (`Product.to_api_data`), the
update-time payload adjustment, and the sync operation
(`OroProductManager.create_or_update_product`) of `src/oro_product.py`,
together with theorems settling the specification's claims about them.

JSON documents are modelled by the inductive `Json`; Python dictionaries are
insertion-ordered association lists, so object fields keep insertion order,
assignment of a fresh key appends at the end, and `del` removes the (unique)
key.  HTTP is modelled by oracles: each network call's response is an input
(`HttpResult`), and the functions additionally return the list of requests
issued and the diagnostic log lines printed, so that the ordering claims
about lookups and writes are statable.  `sys.exit(1)` and uncaught Python
exceptions are modelled by the `Except.error` branch.
-/

set_option autoImplicit false

/-- JSON values, as produced by the script's dict/list literals. -/
inductive Json where
  | null : Json
  | bool : Bool → Json
  | num : Int → Json
  | str : String → Json
  | arr : List Json → Json
  | obj : List (String × Json) → Json

/-- Field lookup in an object's (insertion-ordered) field list. -/
def lookupField : List (String × Json) → String → Option Json
  | [], _ => none
  | (k, v) :: rest, key => if k = key then some v else lookupField rest key

/-- `j[key]` for an object, `none` otherwise (Python would raise). -/
def Json.getObjVal? : Json → String → Option Json
  | .obj fields, key => lookupField fields key
  | _, _ => none

/-- `key in j` for an object: Python's `in` test on a dict. -/
def Json.hasKey (j : Json) (key : String) : Bool :=
  (j.getObjVal? key).isSome

/-- `d[key] = v` on a field list: replace in place when present, else append
(Python dicts keep insertion order). -/
def setField : List (String × Json) → String → Json → List (String × Json)
  | [], key, v => [(key, v)]
  | (k, w) :: rest, key, v =>
      if k = key then (k, v) :: rest else (k, w) :: setField rest key v

/-- `j[key] = v` for an object. -/
def Json.setKey : Json → String → Json → Json
  | .obj fields, key, v => .obj (setField fields key v)
  | j, _, _ => j

/-- Apply `f` to the value stored at `key` (used for nested dict mutation
such as `data["data"]["relationships"][...] = ...`). -/
def modifyField : List (String × Json) → String → (Json → Json) → List (String × Json)
  | [], _, _ => []
  | (k, v) :: rest, key, f =>
      if k = key then (k, f v) :: rest else (k, v) :: modifyField rest key f

/-- `j[key] = f (j[key])` for an object. -/
def Json.modifyKey : Json → String → (Json → Json) → Json
  | .obj fields, key, f => .obj (modifyField fields key f)
  | j, _, _ => j

/-- `del d[key]` on a field list (dict keys are unique, so removing the
first occurrence is Python's `del`). -/
def delField : List (String × Json) → String → List (String × Json)
  | [], _ => []
  | (k, v) :: rest, key => if k = key then rest else (k, v) :: delField rest key

/-- `del j[key]` for an object. -/
def Json.delKey : Json → String → Json
  | .obj fields, key => .obj (delField fields key)
  | j, _ => j

/-- Python truthiness of a JSON value (`if response_data['data']:`). -/
def Json.pyTruthy : Json → Bool
  | .null => false
  | .bool b => b
  | .num n => n != 0
  | .str s => !s.isEmpty
  | .arr xs => !xs.isEmpty
  | .obj fields => !fields.isEmpty

/-- Python `str()` of a JSON value, as used by the f-string
`f"...{existing_product['id']}"`.  The scalar arms are exact; the two
container arms abbreviate Python's repr and lie outside the scope of every
theorem below — run-level statements quantify found-record ids as strings,
the only shape a JSON:API `id` takes. -/
def Json.pyStr : Json → String
  | .str s => s
  | .num n => toString n
  | .bool true => "True"
  | .bool false => "False"
  | .null => "None"
  | .arr _ => "[...]"
  | .obj _ => "\x7b...\x7d"

/-- The elements of a JSON array (`data["included"]` is always an array
where this is used). -/
def Json.toArr : Json → List Json
  | .arr xs => xs
  | _ => []

/-- Python truthiness of an `Optional[str]` (`if self.unit:`): `None` and
the empty string are falsy. -/
def optTruthy : Option String → Bool
  | none => false
  | some s => !s.isEmpty

/-- An `Optional[str]` as the JSON value it serialises to. -/
def optStr : Option String → Json
  | none => .null
  | some s => .str s

/-- The `Product` dataclass: `sku`, `name`, and the two `Optional[str]`
fields `unit` and `inventory_status`. -/
structure Product where
  sku : String
  name : String
  unit : Option String
  inventory_status : Option String

/-- A `Product` constructed giving only `sku` and `name`, the other fields
taking the dataclass defaults: `unit = "item"`,
`inventory_status = "in_stock"`. -/
def Product.mkDefault (sku name : String) : Product :=
  { sku := sku, name := name, unit := some "item", inventory_status := some "in_stock" }

/-- The `productunitprecisions` resource appended to `included` when
`self.unit` is truthy (the local `unit_precision` dict). -/
def unit_precision_entry (unit : Json) : Json :=
  .obj [
    ("type", .str "productunitprecisions"),
    ("id", .str "product-unit-precision-id-1"),
    ("attributes", .obj [
      ("precision", .num 0),
      ("conversionRate", .num 1),
      ("sell", .num 1)]),
    ("relationships", .obj [
      ("unit", .obj [
        ("data", .obj [
          ("type", .str "productunits"),
          ("id", unit)])])])]

/-- `Product.to_api_data`: the payload builder. -/
def Product.to_api_data (p : Product) : Json :=
  let data : Json := .obj [
    ("data", .obj [
      ("type", .str "products"),
      ("attributes", .obj [
        ("sku", .str p.sku),
        ("status", .str "enabled"),
        ("productType", .str "simple"),
        ("featured", .bool true),
        ("newArrival", .bool true)]),
      ("relationships", .obj [
        ("owner", .obj [
          ("data", .obj [("type", .str "businessunits"), ("id", .str "1")])]),
        ("organization", .obj [
          ("data", .obj [("type", .str "organizations"), ("id", .str "1")])]),
        ("names", .obj [
          ("data", .arr [.obj [("type", .str "productnames"), ("id", .str "names-1")]])]),
        ("attributeFamily", .obj [
          ("data", .obj [("type", .str "attributefamilies"), ("id", .str "1")])]),
        ("inventory_status", .obj [
          ("data", .obj [
            ("type", .str "prodinventorystatuses"),
            ("id", optStr p.inventory_status)])])])]),
    ("included", .arr [
      .obj [
        ("type", .str "productnames"),
        ("id", .str "names-1"),
        ("attributes", .obj [("fallback", .null), ("string", .str p.name)]),
        ("relationships", .obj [("localization", .obj [("data", .null)])])]])]
  if optTruthy p.unit then
    let data := data.modifyKey "data" fun d =>
      d.modifyKey "relationships" fun r =>
        r.setKey "primaryUnitPrecision" (.obj [
          ("data", .obj [
            ("type", .str "productunitprecisions"),
            ("id", .str "product-unit-precision-id-1")])])
    let data := data.modifyKey "data" fun d =>
      d.modifyKey "relationships" fun r =>
        r.setKey "unitPrecisions" (.obj [
          ("data", .arr [.obj [
            ("type", .str "productunitprecisions"),
            ("id", .str "product-unit-precision-id-1")]])])
    data.modifyKey "included" fun inc =>
      .arr (inc.toArr ++ [unit_precision_entry (optStr p.unit)])
  else
    data

/-- `item["type"] == t` in Python, on the (always-object) members of
`included`. -/
def Json.typeIs (j : Json) (t : String) : Bool :=
  match j.getObjVal? "type" with
  | some (.str s) => s = t
  | _ => false

/-- The update-time adjustment of `create_or_update_product` (lines
280–288): set `data["data"]["id"]` to the found record's id, delete the
`unitPrecisions` and `primaryUnitPrecision` relationships when present, and
drop every `productunitprecisions` entry from `included`. -/
def update_payload (p : Product) (existingId : Json) : Json :=
  let data := p.to_api_data
  let data := data.modifyKey "data" fun d => d.setKey "id" existingId
  let data :=
    if ((((data.getObjVal? "data").getD .null).getObjVal? "relationships").getD .null).hasKey "unitPrecisions" then
      data.modifyKey "data" fun d => d.modifyKey "relationships" fun r => r.delKey "unitPrecisions"
    else data
  let data :=
    if ((((data.getObjVal? "data").getD .null).getObjVal? "relationships").getD .null).hasKey "primaryUnitPrecision" then
      data.modifyKey "data" fun d => d.modifyKey "relationships" fun r => r.delKey "primaryUnitPrecision"
    else data
  data.setKey "included"
    (.arr (((data.getObjVal? "included").getD .null).toArr.filter
      fun item => !(item.typeIs "productunitprecisions")))

/-! ## Accessors used to state properties of payloads -/

/-- `payload["data"]`. -/
def dataOf (payload : Json) : Json :=
  (payload.getObjVal? "data").getD .null

/-- `payload["data"]["relationships"]`. -/
def relsOf (payload : Json) : Json :=
  ((dataOf payload).getObjVal? "relationships").getD .null

/-- The members of `payload["included"]`. -/
def includedOf (payload : Json) : List Json :=
  ((payload.getObjVal? "included").getD .null).toArr

/-- `payload["data"]["attributes"]["sku"]`. -/
def attributesSku (payload : Json) : Option Json :=
  (((dataOf payload).getObjVal? "attributes").getD .null).getObjVal? "sku"

/-- `payload["data"]["relationships"]["inventory_status"]["data"]["id"]`. -/
def inventory_status_id (payload : Json) : Option Json :=
  ((((relsOf payload).getObjVal? "inventory_status").getD .null).getObjVal? "data").getD .null
    |>.getObjVal? "id"

/-- `item["relationships"]["unit"]["data"]["id"]` of an included entry. -/
def unit_rel_id (j : Json) : Option Json :=
  (((((j.getObjVal? "relationships").getD .null).getObjVal? "unit").getD .null).getObjVal? "data").getD .null
    |>.getObjVal? "id"

/-! ## The manager: HTTP calls as oracles, with request traces

Each network response is supplied as an oracle (`HttpResult`); the modelled
operations return the updated manager state, the list of requests issued (in
order), the diagnostic lines printed for the lookup-failure path, and either
a result or an `Except.error` standing for `sys.exit(1)` / an uncaught
Python exception.  Prints other than the `"Error getting product"`
diagnostic are not modelled. -/

/-- Outcome of one HTTP exchange: a parsed body, or a
`requests.exceptions.RequestException` (covering transport errors and, via
`raise_for_status`, HTTP error statuses). -/
inductive HttpResult (α : Type) where
  | ok : α → HttpResult α
  | err : String → HttpResult α

/-- The environment configuration read in `__init__` (all four variables
validated non-empty there). -/
structure Env where
  base_url : String
  client_id : String
  client_secret : String
  admin_path : String

/-- The manager's mutable state: the cached token (`self.token`). -/
structure ManagerState where
  token : Option String

/-- A network request issued by the script. -/
inductive Request where
  | tokenReq : String → Request
  | getReq : String → Request
  | writeReq : String → String → Json → Request

/-- `f"{self.base_url}/oauth2-token"`. -/
def token_url (env : Env) : String :=
  env.base_url ++ "/oauth2-token"

/-- `f"{self.base_url}/{self.admin_path}/api/products"`. -/
def collection_url (env : Env) : String :=
  env.base_url ++ "/" ++ env.admin_path ++ "/api/products"

/-- `f"{product_url}?filter[sku]={sku}"`. -/
def search_url (env : Env) (sku : String) : String :=
  collection_url env ++ "?filter[sku]=" ++ sku

/-- One token-exchange POST to `/oauth2-token`: on success the token is
stored in `self.token` and returned; on a `RequestException`,
`sys.exit(1)`. -/
def token_exchange (env : Env) (st : ManagerState) (tokenResp : HttpResult String) :
    ManagerState × List Request × Except String String :=
  match tokenResp with
  | .ok tok => (⟨some tok⟩, [.tokenReq (token_url env)], .ok tok)
  | .err _ => (st, [.tokenReq (token_url env)], .error "SystemExit(1)")

/-- `get_access_token`: `if self.token:` is a Python truthiness test, so
the stored token is served from the cache only when it is a non-`None`,
non-empty string; a stored empty string is falsy and the exchange is
issued again. -/
def get_access_token (env : Env) (st : ManagerState) (tokenResp : HttpResult String) :
    ManagerState × List Request × Except String String :=
  match st.token with
  | some t => if t.isEmpty then token_exchange env st tokenResp else (st, [], .ok t)
  | none => token_exchange env st tokenResp

/-- `get_headers`: acquire a token and build the three fixed headers. -/
def get_headers (env : Env) (st : ManagerState) (tokenResp : HttpResult String) :
    ManagerState × List Request × Except String (List (String × String)) :=
  match get_access_token env st tokenResp with
  | (st', reqs, .ok tok) =>
      (st', reqs, .ok [
        ("Authorization", "Bearer " ++ tok),
        ("Content-Type", "application/vnd.api+json"),
        ("Accept", "application/vnd.api+json")])
  | (st', reqs, .error e) => (st', reqs, .error e)

/-- The result-handling of `get_product_by_sku`: a `RequestException` is
caught and treated as not-found; otherwise the first element of a truthy
`data` member is returned.  On degenerate bodies Python's subscripting
semantics apply: a truthy string yields its first character, a dict raises
`KeyError`, and other truthy values raise `TypeError` (uncaught, so they
propagate as `Except.error`). -/
def get_product_by_sku (resp : HttpResult Json) : Except String (Option Json) :=
  match resp with
  | .err _ => .ok none
  | .ok body =>
      match body.getObjVal? "data" with
      | some v =>
          if v.pyTruthy then
            match v with
            | .arr (x :: _) => .ok (some x)
            | .arr [] => .ok none
            | .str s => .ok (some (.str (String.singleton s.front)))
            | .obj _ => .error "KeyError"
            | _ => .error "TypeError"
          else .ok none
      | none => .ok none

/-- `get_product_by_sku` with its trace: headers (hence possibly a token
request) are obtained inside the `try`, then the GET is issued; a
`RequestException` from the GET is logged and yields not-found. -/
def get_product_by_sku_run (env : Env) (st : ManagerState) (sku : String)
    (tokenResp : HttpResult String) (lookupResp : HttpResult Json) :
    ManagerState × List Request × List String × Except String (Option Json) :=
  match get_headers env st tokenResp with
  | (st', reqs, .error e) => (st', reqs, [], .error e)
  | (st', reqs, .ok _headers) =>
      let reqs := reqs ++ [.getReq (search_url env sku)]
      match lookupResp with
      | .err e => (st', reqs, ["Error getting product: " ++ e], .ok none)
      | .ok body => (st', reqs, [], get_product_by_sku (.ok body))

/-- `create_or_update_product` with its trace: look up by SKU, choose
PATCH-to-id (with the update-adjusted payload) or POST-to-collection (with
the plain payload), obtain headers again (the token is already cached), and
issue the write; a write failure is `sys.exit(1)`. -/
def create_or_update_product_run (env : Env) (st : ManagerState) (p : Product)
    (tokenResp : HttpResult String) (lookupResp : HttpResult Json)
    (writeResp : HttpResult Json) :
    ManagerState × List Request × List String × Except String Json :=
  match get_product_by_sku_run env st p.sku tokenResp lookupResp with
  | (st1, reqs1, logs1, .error e) => (st1, reqs1, logs1, .error e)
  | (st1, reqs1, logs1, .ok existing) =>
      let step : Except String (String × String × Json) :=
        match existing with
        | some ex =>
            match ex.getObjVal? "id" with
            | some idv =>
                .ok ("PATCH", collection_url env ++ "/" ++ idv.pyStr, update_payload p idv)
            | none => .error "KeyError"
        | none => .ok ("POST", collection_url env, p.to_api_data)
      match step with
      | .error e => (st1, reqs1, logs1, .error e)
      | .ok (method, url, data) =>
          match get_headers env st1 tokenResp with
          | (st2, reqs2, .error e) => (st2, reqs1 ++ reqs2, logs1, .error e)
          | (st2, reqs2, .ok _headers) =>
              let reqs := reqs1 ++ reqs2 ++ [.writeReq method url data]
              match writeResp with
              | .ok body => (st2, reqs, logs1, .ok body)
              | .err _ => (st2, reqs, logs1, .error "SystemExit(1)")

/-- The requests issued by a run. -/
def runReqs (o : ManagerState × List Request × List String × Except String Json) :
    List Request :=
  o.2.1

/-- The diagnostic lines printed by a run. -/
def runLogs (o : ManagerState × List Request × List String × Except String Json) :
    List String :=
  o.2.2.1

/-- The outcome of a run. -/
def runRes (o : ManagerState × List Request × List String × Except String Json) :
    Except String Json :=
  o.2.2.2

/-- Whether a request is a create/update write (POST or PATCH with a
payload), as opposed to a token exchange or the lookup GET. -/
def isWriteReq : Request → Bool
  | .writeReq _ _ _ => true
  | _ => false

/-! ## The CLI (`main` and `argparse`) -/

/-- The parsed command line: `--sku` and `--name` are required, `--unit`
defaults to `"item"`, `--inventory-status` defaults to `"in_stock"`. -/
structure Args where
  sku : String
  name : String
  unit : String
  inventory_status : String

/-- `argparse` parsing, the optional flags given as `Option` (absent flag =
`none`): defaults `"item"` and `"in_stock"` apply when omitted. -/
def parse_args (sku name : String) (unitFlag inventoryStatusFlag : Option String) : Args :=
  { sku := sku
    name := name
    unit := unitFlag.getD "item"
    inventory_status := inventoryStatusFlag.getD "in_stock" }

/-- The `Product(...)` construction in `main`: every field is passed
explicitly from the parsed arguments. -/
def Args.toProduct (a : Args) : Product :=
  { sku := a.sku
    name := a.name
    unit := some a.unit
    inventory_status := some a.inventory_status }

/-- The `productnames` entry of a payload's `included` list. -/
def included_name_string (payload : Json) : Option Json :=
  match includedOf payload with
  | j :: _ => ((j.getObjVal? "attributes").getD .null).getObjVal? "string"
  | [] => none

/-! ## Concrete fixtures used to instantiate the theorems -/

/-- A concrete environment. -/
def envW : Env :=
  { base_url := "https://shop.example.com"
    client_id := "client"
    client_secret := "secret"
    admin_path := "admin" }

/-- A concrete product with all four fields populated. -/
def productW : Product :=
  { sku := "SKU-1", name := "Widget", unit := some "item", inventory_status := some "in_stock" }

/-- A concrete existing record as returned by the SKU lookup. -/
def exW : Json :=
  .obj [("type", .str "products"), ("id", .str "42")]

/-- A lookup response body whose `data` array holds one record. -/
def foundBodyW : Json :=
  .obj [("data", .arr [exW])]

/-- A lookup response body whose `data` array is empty (SKU not found). -/
def emptyBodyW : Json :=
  .obj [("data", .arr [])]

/-- The `productnames` included entry built for `productW`. -/
def namesEntryW : Json :=
  .obj [
    ("type", .str "productnames"),
    ("id", .str "names-1"),
    ("attributes", .obj [("fallback", .null), ("string", .str "Widget")]),
    ("relationships", .obj [("localization", .obj [("data", .null)])])]

/-- The full document `to_api_data` returns for a product whose `sku` and
`name` are both empty (unit and inventory status at their defaults): the
ordinary create payload, with the empty strings embedded verbatim. -/
def emptyProductPayload : Json :=
  .obj [
    ("data", .obj [
      ("type", .str "products"),
      ("attributes", .obj [
        ("sku", .str ""),
        ("status", .str "enabled"),
        ("productType", .str "simple"),
        ("featured", .bool true),
        ("newArrival", .bool true)]),
      ("relationships", .obj [
        ("owner", .obj [
          ("data", .obj [("type", .str "businessunits"), ("id", .str "1")])]),
        ("organization", .obj [
          ("data", .obj [("type", .str "organizations"), ("id", .str "1")])]),
        ("names", .obj [
          ("data", .arr [.obj [("type", .str "productnames"), ("id", .str "names-1")]])]),
        ("attributeFamily", .obj [
          ("data", .obj [("type", .str "attributefamilies"), ("id", .str "1")])]),
        ("inventory_status", .obj [
          ("data", .obj [
            ("type", .str "prodinventorystatuses"),
            ("id", .str "in_stock")])]),
        ("primaryUnitPrecision", .obj [
          ("data", .obj [
            ("type", .str "productunitprecisions"),
            ("id", .str "product-unit-precision-id-1")])]),
        ("unitPrecisions", .obj [
          ("data", .arr [.obj [
            ("type", .str "productunitprecisions"),
            ("id", .str "product-unit-precision-id-1")]])])])]),
    ("included", .arr [
      .obj [
        ("type", .str "productnames"),
        ("id", .str "names-1"),
        ("attributes", .obj [("fallback", .null), ("string", .str "")]),
        ("relationships", .obj [("localization", .obj [("data", .null)])])],
      unit_precision_entry (.str "item")])]

/-! ## Helper lemmas about the sync run -/

/-- When the lookup body's `data` array is non-empty and its first record
has an `id`, the run issues the token request, the search GET, a second
token exchange exactly when the acquired token is the empty string (falsy
under `if self.token:`), and finally a PATCH to the per-id URL carrying the
update-adjusted payload. -/
theorem run_found_trace (env : Env) (p : Product) (tok : String) (body ex idv : Json)
    (rest : List Json) (w : HttpResult Json)
    (hb : body.getObjVal? "data" = some (.arr (ex :: rest)))
    (hid : ex.getObjVal? "id" = some idv) :
    runReqs (create_or_update_product_run env ⟨none⟩ p (.ok tok) (.ok body) w) =
      [.tokenReq (token_url env), .getReq (search_url env p.sku)] ++
        (if tok.isEmpty then [.tokenReq (token_url env)] else []) ++
        [.writeReq "PATCH" (collection_url env ++ "/" ++ idv.pyStr) (update_payload p idv)] := by
  rcases htok : tok.isEmpty with _ | _ <;> cases w <;>
    simp [create_or_update_product_run, get_product_by_sku_run, get_product_by_sku,
      get_headers, get_access_token, token_exchange, runReqs, hb, hid, Json.pyTruthy, htok]

/-- When the lookup yields not-found, the run issues the token request, the
search GET, a second token exchange exactly when the acquired token is the
empty string, and finally a POST to the collection URL carrying the plain
create payload. -/
theorem run_notfound_trace (env : Env) (p : Product) (tok : String) (body : Json)
    (w : HttpResult Json)
    (hnone : get_product_by_sku (.ok body) = .ok none) :
    runReqs (create_or_update_product_run env ⟨none⟩ p (.ok tok) (.ok body) w) =
      [.tokenReq (token_url env), .getReq (search_url env p.sku)] ++
        (if tok.isEmpty then [.tokenReq (token_url env)] else []) ++
        [.writeReq "POST" (collection_url env) p.to_api_data] := by
  rcases htok : tok.isEmpty with _ | _ <;> cases w <;>
    simp [create_or_update_product_run, get_product_by_sku_run,
      get_headers, get_access_token, token_exchange, runReqs, hnone, htok]

/-! ## The claims -/

/-- Claim C1: for every Product (whether or not its unit is set) and every
existing id, the update payload — `to_api_data` followed by the adjustment
in `create_or_update_product` — has no `unitPrecisions` key and no
`primaryUnitPrecision` key in `data.relationships`, and no entry of type
`"productunitprecisions"` in `included`. -/
theorem update_payload_strips_unit_precisions (p : Product) (existingId : Json) :
    (relsOf (update_payload p existingId)).hasKey "unitPrecisions" = false ∧
    (relsOf (update_payload p existingId)).hasKey "primaryUnitPrecision" = false ∧
    ∀ j ∈ includedOf (update_payload p existingId),
      j.typeIs "productunitprecisions" = false := by
  obtain ⟨s, n, u, i⟩ := p
  rcases u with _ | u
  · refine ⟨rfl, rfl, ?_⟩
    intro j hj
    simp [includedOf, update_payload, Product.to_api_data, optTruthy, optStr, relsOf, dataOf,
      Json.hasKey, Json.getObjVal?, lookupField, Json.setKey, setField, Json.modifyKey,
      modifyField, Json.delKey, delField, Json.toArr, Json.typeIs] at hj
    subst hj
    rfl
  · rcases hu : u.isEmpty with _ | _ <;>
      refine ⟨?_, ?_, ?_⟩ <;>
        simp [includedOf, update_payload, Product.to_api_data, unit_precision_entry, optTruthy,
          optStr, relsOf, dataOf, Json.hasKey, Json.getObjVal?, lookupField, Json.setKey, setField,
          Json.modifyKey, modifyField, Json.delKey, delField, Json.toArr, Json.typeIs, hu]

/-- Witness for C1 at a concrete product and existing id: the keys are
absent, and the one remaining included entry is not a unit precision. -/
theorem update_payload_strips_unit_precisions_witness :
    (relsOf (update_payload productW (.str "42"))).hasKey "unitPrecisions" = false ∧
    namesEntryW.typeIs "productunitprecisions" = false :=
  ⟨(update_payload_strips_unit_precisions productW (.str "42")).1,
   (update_payload_strips_unit_precisions productW (.str "42")).2.2 namesEntryW
     (by show namesEntryW ∈ [namesEntryW]; exact List.mem_singleton_self _)⟩

/-- Claim C2: a create payload carries the `unitPrecisions` and
`primaryUnitPrecision` relationships and a `"productunitprecisions"`
included entry exactly when the product's unit is set (a non-`None`,
non-empty string — Python truthiness, matching the builder's `if
self.unit:`); and when the unit is set, there is exactly one such included
entry and its `relationships.unit.data.id` equals the unit. -/
theorem create_payload_unit_precisions_iff_unit (p : Product) :
    ((relsOf p.to_api_data).hasKey "unitPrecisions" = true ↔ optTruthy p.unit = true) ∧
    ((relsOf p.to_api_data).hasKey "primaryUnitPrecision" = true ↔ optTruthy p.unit = true) ∧
    ((includedOf p.to_api_data).any (fun j => j.typeIs "productunitprecisions") = true ↔
      optTruthy p.unit = true) ∧
    ∀ u, p.unit = some u → u.isEmpty = false →
      (includedOf p.to_api_data).countP (fun j => j.typeIs "productunitprecisions") = 1 ∧
      ∀ j ∈ includedOf p.to_api_data, j.typeIs "productunitprecisions" = true →
        unit_rel_id j = some (.str u) := by
  obtain ⟨s, n, u, i⟩ := p
  rcases u with _ | u
  · refine ⟨?_, ?_, ?_, ?_⟩ <;>
      simp [includedOf, Product.to_api_data, unit_precision_entry, optTruthy, optStr,
        relsOf, dataOf, Json.hasKey, Json.getObjVal?, lookupField, Json.setKey, setField,
        Json.modifyKey, modifyField, Json.toArr, Json.typeIs, unit_rel_id]
  · rcases hu : u.isEmpty with _ | _ <;>
      refine ⟨?_, ?_, ?_, ?_⟩ <;>
        simp [includedOf, Product.to_api_data, unit_precision_entry, optTruthy, optStr,
          relsOf, dataOf, Json.hasKey, Json.getObjVal?, lookupField, Json.setKey, setField,
          Json.modifyKey, modifyField, Json.toArr, Json.typeIs, unit_rel_id, hu]

/-- Witness for C2 at a concrete product with unit `"item"`: exactly one
unit-precision included entry, and its unit relationship id is `"item"`. -/
theorem create_payload_unit_precisions_witness :
    (includedOf productW.to_api_data).countP (fun j => j.typeIs "productunitprecisions") = 1 ∧
    unit_rel_id (unit_precision_entry (.str "item")) = some (.str "item") := by
  have h := (create_payload_unit_precisions_iff_unit productW).2.2.2 "item" rfl rfl
  exact ⟨h.1, h.2 (unit_precision_entry (.str "item"))
    (by show unit_precision_entry (.str "item") ∈ [namesEntryW, unit_precision_entry (.str "item")]
        exact List.mem_cons_of_mem _ (List.mem_singleton_self _)) rfl⟩

/-- Counterexample to C3 as stated: the payload builder does not fail on an
empty `sku` or `name` — run at the product with both empty it returns the
ordinary, fully-formed create document, and the update adjustment likewise
accepts an empty existing id, embedding it as `data.id`. -/
theorem empty_sku_payload_still_built :
    (Product.mk "" "" (some "item") (some "in_stock")).to_api_data = emptyProductPayload ∧
    (dataOf (update_payload (Product.mk "" "" (some "item") (some "in_stock")) (.str ""))).getObjVal?
      "id" = some (.str "") :=
  ⟨rfl, rfl⟩

/-- Claim C3 as amended: the payload builder performs no validation and
never fails — for every product (including empty `sku` or `name`) and every
existing id (including the empty string) it returns the standard document,
with `data.attributes.sku` the given sku, the included `productnames`
string the given name, and on the update path `data.id` the given id. -/
theorem payload_builder_never_fails (p : Product) (existingId : Json) :
    attributesSku p.to_api_data = some (.str p.sku) ∧
    included_name_string p.to_api_data = some (.str p.name) ∧
    (dataOf (update_payload p existingId)).getObjVal? "id" = some existingId := by
  obtain ⟨s, n, u, i⟩ := p
  rcases u with _ | u
  · exact ⟨rfl, rfl, rfl⟩
  · rcases hu : u.isEmpty with _ | _ <;>
      refine ⟨?_, ?_, ?_⟩ <;>
        simp [attributesSku, included_name_string, includedOf, update_payload,
          Product.to_api_data, unit_precision_entry, optTruthy, optStr, relsOf, dataOf,
          Json.hasKey, Json.getObjVal?, lookupField, Json.setKey, setField, Json.modifyKey,
          modifyField, Json.delKey, delField, Json.toArr, Json.typeIs, hu]

/-- Claim C4: the top-level `data.id` is present exactly on updates — the
create payload has no `data.id` key, the update payload's `data.id` equals
the id it is adjusted with, and the one write the sync run issues on the
found path is a PATCH carrying the payload whose `data.id` is the found
record's id (string, the shape a JSON:API id takes). -/
theorem payload_data_id_iff_update (p : Product) (idv : Json) (env : Env) (tok : String)
    (body ex : Json) (rest : List Json) (i : String) (w : HttpResult Json) :
    (dataOf p.to_api_data).hasKey "id" = false ∧
    (dataOf (update_payload p idv)).getObjVal? "id" = some idv ∧
    (body.getObjVal? "data" = some (.arr (ex :: rest)) →
      ex.getObjVal? "id" = some (.str i) →
      (runReqs (create_or_update_product_run env ⟨none⟩ p (.ok tok) (.ok body) w)).filter
          isWriteReq =
        [.writeReq "PATCH" (collection_url env ++ "/" ++ i) (update_payload p (.str i))] ∧
      (dataOf (update_payload p (.str i))).getObjVal? "id" = some (.str i)) := by
  have hid2 : ∀ idv' : Json, (dataOf (update_payload p idv')).getObjVal? "id" = some idv' := by
    intro idv'
    obtain ⟨s, n, u, iv⟩ := p
    rcases u with _ | u
    · rfl
    · rcases hu : u.isEmpty with _ | _ <;>
        simp [update_payload, Product.to_api_data, unit_precision_entry, optTruthy, optStr,
          dataOf, Json.hasKey, Json.getObjVal?, lookupField, Json.setKey, setField,
          Json.modifyKey, modifyField, Json.delKey, delField, Json.toArr, Json.typeIs, hu]
  refine ⟨?_, hid2 idv, ?_⟩
  · obtain ⟨s, n, u, iv⟩ := p
    rcases u with _ | u
    · rfl
    · rcases hu : u.isEmpty with _ | _ <;>
        simp [Product.to_api_data, unit_precision_entry, optTruthy, optStr,
          dataOf, Json.hasKey, Json.getObjVal?, lookupField, Json.setKey, setField,
          Json.modifyKey, modifyField, Json.toArr, hu]
  · intro hb hid
    refine ⟨?_, hid2 (.str i)⟩
    rw [run_found_trace env p tok body ex (.str i) rest w hb hid]
    rcases h : tok.isEmpty with _ | _ <;> simp [h, isWriteReq, Json.pyStr]

/-- Witness for C4: the concrete run with a found record of id `"42"`
issues as its one write a PATCH carrying the payload whose `data.id` is
`"42"`. -/
theorem payload_data_id_iff_update_witness :
    (dataOf (update_payload productW (.str "42"))).getObjVal? "id" = some (.str "42") ∧
    (runReqs (create_or_update_product_run envW ⟨none⟩ productW (.ok "tok") (.ok foundBodyW)
        (.ok .null))).filter isWriteReq =
      [.writeReq "PATCH" (collection_url envW ++ "/" ++ "42")
         (update_payload productW (.str "42"))] :=
  ⟨(payload_data_id_iff_update productW (.str "42") envW "tok" foundBodyW exW [] "42"
      (.ok .null)).2.1,
   ((payload_data_id_iff_update productW (.str "42") envW "tok" foundBodyW exW [] "42"
      (.ok .null)).2.2 rfl rfl).1⟩

/-- Claim C5: when the SKU lookup returns an existing record, the write
request the run issues is a PATCH to the per-id resource URL (the
collection URL with the found id appended); when no record is found it is a
POST to the collection URL.  The write-request part holds for every
acquired token; when the token is non-empty (truthy, so not re-exchanged
before the write) the whole trace is exactly token request, lookup GET,
write. -/
theorem sync_patch_when_found_post_when_not (env : Env) (p : Product) (tok : String)
    (body : Json) (w : HttpResult Json) :
    (∀ ex rest i, body.getObjVal? "data" = some (.arr (ex :: rest)) →
        ex.getObjVal? "id" = some (.str i) →
        (runReqs (create_or_update_product_run env ⟨none⟩ p (.ok tok) (.ok body) w)).filter
            isWriteReq =
          [.writeReq "PATCH" (collection_url env ++ "/" ++ i) (update_payload p (.str i))] ∧
        (tok.isEmpty = false →
          runReqs (create_or_update_product_run env ⟨none⟩ p (.ok tok) (.ok body) w) =
            [.tokenReq (token_url env), .getReq (search_url env p.sku),
             .writeReq "PATCH" (collection_url env ++ "/" ++ i) (update_payload p (.str i))])) ∧
    (get_product_by_sku (.ok body) = .ok none →
        (runReqs (create_or_update_product_run env ⟨none⟩ p (.ok tok) (.ok body) w)).filter
            isWriteReq =
          [.writeReq "POST" (collection_url env) p.to_api_data] ∧
        (tok.isEmpty = false →
          runReqs (create_or_update_product_run env ⟨none⟩ p (.ok tok) (.ok body) w) =
            [.tokenReq (token_url env), .getReq (search_url env p.sku),
             .writeReq "POST" (collection_url env) p.to_api_data])) := by
  constructor
  · intro ex rest i hb hid
    have ht := run_found_trace env p tok body ex (.str i) rest w hb hid
    constructor
    · rw [ht]
      rcases h : tok.isEmpty with _ | _ <;> simp [h, isWriteReq, Json.pyStr]
    · intro hne
      rw [ht]
      simp [hne, Json.pyStr]
  · intro hnone
    have ht := run_notfound_trace env p tok body w hnone
    constructor
    · rw [ht]
      rcases h : tok.isEmpty with _ | _ <;> simp [h, isWriteReq]
    · intro hne
      rw [ht]
      simp [hne]

/-- Witness for C5: the run with a found record of id `"42"` PATCHes the
per-id URL; the run with an empty `data` array POSTs the collection URL. -/
theorem sync_patch_when_found_post_when_not_witness :
    runReqs (create_or_update_product_run envW ⟨none⟩ productW (.ok "tok") (.ok foundBodyW)
        (.ok .null)) =
      [.tokenReq (token_url envW), .getReq (search_url envW productW.sku),
       .writeReq "PATCH" (collection_url envW ++ "/" ++ "42") (update_payload productW (.str "42"))] ∧
    runReqs (create_or_update_product_run envW ⟨none⟩ productW (.ok "tok") (.ok emptyBodyW)
        (.ok .null)) =
      [.tokenReq (token_url envW), .getReq (search_url envW productW.sku),
       .writeReq "POST" (collection_url envW) productW.to_api_data] :=
  ⟨((sync_patch_when_found_post_when_not envW productW "tok" foundBodyW (.ok .null)).1
      exW [] "42" rfl rfl).2 rfl,
   ((sync_patch_when_found_post_when_not envW productW "tok" emptyBodyW (.ok .null)).2 rfl).2 rfl⟩

/-- Claim C6: a lookup failure does not terminate the operation — the
result is treated as not-found, the error is logged, and the run proceeds
on the creation path: the one write issued is a POST of the create payload
to the collection URL (and with a non-empty token the whole trace is
exactly token request, lookup GET, POST). -/
theorem lookup_failure_treated_as_not_found (env : Env) (p : Product) (tok e : String)
    (writeResp : HttpResult Json) :
    get_product_by_sku (.err e) = .ok none ∧
    ("Error getting product: " ++ e) ∈
      runLogs (create_or_update_product_run env ⟨none⟩ p (.ok tok) (.err e) writeResp) ∧
    (runReqs (create_or_update_product_run env ⟨none⟩ p (.ok tok) (.err e) writeResp)).filter
        isWriteReq =
      [.writeReq "POST" (collection_url env) p.to_api_data] ∧
    (tok.isEmpty = false →
      runReqs (create_or_update_product_run env ⟨none⟩ p (.ok tok) (.err e) writeResp) =
        [.tokenReq (token_url env), .getReq (search_url env p.sku),
         .writeReq "POST" (collection_url env) p.to_api_data]) := by
  refine ⟨rfl, ?_, ?_, ?_⟩ <;>
    rcases h : tok.isEmpty with _ | _ <;> cases writeResp <;>
      simp [create_or_update_product_run, get_product_by_sku_run, get_product_by_sku,
        get_headers, get_access_token, token_exchange, runReqs, runLogs, isWriteReq, h]

/-- Witness for C6 at a concrete failing lookup and non-empty token: the
trace is exactly token request, lookup GET, POST of the create payload. -/
theorem lookup_failure_treated_as_not_found_witness :
    runReqs (create_or_update_product_run envW ⟨none⟩ productW (.ok "tok") (.err "timeout")
        (.ok .null)) =
      [.tokenReq (token_url envW), .getReq (search_url envW productW.sku),
       .writeReq "POST" (collection_url envW) productW.to_api_data] :=
  (lookup_failure_treated_as_not_found envW productW "tok" "timeout" (.ok .null)).2.2.2 rfl

/-- Claim C7: when the token exchange fails, the whole sync run is exactly
the one token request followed by the fatal exit — no lookup GET and no
write request is ever issued, whatever the other oracles would answer. -/
theorem token_failure_aborts_sync (env : Env) (p : Product) (e : String)
    (lookupResp : HttpResult Json) (writeResp : HttpResult Json) :
    create_or_update_product_run env ⟨none⟩ p (.err e) lookupResp writeResp =
      (⟨none⟩, [.tokenReq (token_url env)], [], .error "SystemExit(1)") := by
  simp [create_or_update_product_run, get_product_by_sku_run, get_headers, get_access_token,
    token_exchange]

/-- Claim C8: the id of the `inventory_status` relationship equals the
product's `inventory_status` when that field is set to a string, and equals
`"in_stock"` when the field is absent at construction (the dataclass
default, as in `Product.mkDefault`). -/
theorem inventory_status_id_set_or_default (p : Product) (s sku name : String) :
    (p.inventory_status = some s → inventory_status_id p.to_api_data = some (.str s)) ∧
    inventory_status_id (Product.mkDefault sku name).to_api_data = some (.str "in_stock") := by
  refine ⟨?_, rfl⟩
  intro h
  obtain ⟨sk, n, u, i⟩ := p
  simp only at h
  subst h
  rcases u with _ | u
  · rfl
  · rcases hu : u.isEmpty with _ | _ <;>
      simp [inventory_status_id, Product.to_api_data, unit_precision_entry, optTruthy, optStr,
        relsOf, dataOf, Json.getObjVal?, lookupField, Json.setKey, setField,
        Json.modifyKey, modifyField, Json.toArr, hu]

/-- Witness for C8 at a product whose `inventory_status` is set to
`"in_stock"`. -/
theorem inventory_status_id_set_or_default_witness :
    inventory_status_id productW.to_api_data = some (.str "in_stock") :=
  (inventory_status_id_set_or_default productW "in_stock" "S" "N").1 rfl

/-- Counterexample to C9 as stated: the token exchange can succeed with the
empty string; the first call stores it in `self.token`, yet — `if
self.token:` being falsy on `""` — the next call issues a further
token-exchange request instead of serving the cache. -/
theorem empty_token_not_cached :
    (get_access_token envW ⟨none⟩ (.ok "")).2.2 = .ok "" ∧
    (get_access_token envW ⟨none⟩ (.ok "")).1 = ⟨some ""⟩ ∧
    get_access_token envW ⟨some ""⟩ (.ok "") =
      (⟨some ""⟩, [.tokenReq (token_url envW)], .ok "") :=
  ⟨rfl, rfl, rfl⟩

/-- Claim C9 as amended: once a call to `get_access_token` succeeds with a
non-empty token, every subsequent call returns that same cached token and
issues no further token-exchange request, whatever the token oracle would
now answer; a stored empty-string token is falsy under `if self.token:` and
is not served from the cache. -/
theorem access_token_cached_after_nonempty_success (env : Env) (st : ManagerState)
    (r r' : HttpResult String) (t : String)
    (h : (get_access_token env st r).2.2 = .ok t) (hne : t.isEmpty = false) :
    get_access_token env (get_access_token env st r).1 r' =
      ((get_access_token env st r).1, [], .ok t) := by
  rcases st with ⟨_ | u⟩
  · rcases r with tok | e
    · simp [get_access_token, token_exchange] at h ⊢
      subst h
      simp [hne]
    · simp [get_access_token, token_exchange] at h
  · rcases hu : u.isEmpty with _ | _
    · simp [get_access_token, hu] at h ⊢
      subst h
      simp [hne, hu]
    · rcases r with tok | e
      · simp [get_access_token, token_exchange, hu] at h ⊢
        subst h
        simp [hne]
      · simp [get_access_token, token_exchange, hu] at h

/-- Witness for the amended C9: after a first acquisition succeeding with
the non-empty token `"token-1"`, a second call returns the cached token
with no request even though the token endpoint is now down. -/
theorem access_token_cached_after_nonempty_success_witness :
    get_access_token envW (get_access_token envW ⟨none⟩ (.ok "token-1")).1 (.err "down") =
      ((get_access_token envW ⟨none⟩ (.ok "token-1")).1, [], .ok "token-1") :=
  access_token_cached_after_nonempty_success envW ⟨none⟩ (.ok "token-1") (.err "down") "token-1"
    rfl rfl

/-- Claim C10: a Product constructed without an explicit unit — including
every CLI invocation omitting `--unit` — has unit `"item"`, so its create
payload carries the unit-precision relationships and a
`"productunitprecisions"` included entry with unit id `"item"`; and the
builder omits the unit-precision block exactly when the unit is `None` or
the empty string. -/
theorem default_unit_item_and_omission (sku name : String) (p : Product) :
    (Product.mkDefault sku name).unit = some "item" ∧
    (parse_args sku name none none).toProduct.unit = some "item" ∧
    (relsOf (Product.mkDefault sku name).to_api_data).hasKey "unitPrecisions" = true ∧
    (relsOf (Product.mkDefault sku name).to_api_data).hasKey "primaryUnitPrecision" = true ∧
    (includedOf (Product.mkDefault sku name).to_api_data).countP
      (fun j => j.typeIs "productunitprecisions") = 1 ∧
    (∀ j ∈ includedOf (Product.mkDefault sku name).to_api_data,
      j.typeIs "productunitprecisions" = true → unit_rel_id j = some (.str "item")) ∧
    (((relsOf p.to_api_data).hasKey "unitPrecisions" = false ∧
      (relsOf p.to_api_data).hasKey "primaryUnitPrecision" = false ∧
      (includedOf p.to_api_data).any (fun j => j.typeIs "productunitprecisions") = false) ↔
      (p.unit = none ∨ p.unit = some "")) := by
  refine ⟨rfl, rfl, rfl, rfl, rfl, ?_, ?_⟩
  · intro j hj ht
    rcases List.mem_cons.mp hj with h1 | h2
    · subst h1
      simp [Json.typeIs, Json.getObjVal?, lookupField] at ht
    · have h2' : j = unit_precision_entry (.str "item") := List.mem_singleton.mp h2
      subst h2'
      rfl
  · obtain ⟨s, n, u, i⟩ := p
    rcases u with _ | u
    · simp [includedOf, Product.to_api_data, unit_precision_entry, optTruthy, optStr, relsOf,
        dataOf, Json.hasKey, Json.getObjVal?, lookupField, Json.setKey, setField,
        Json.modifyKey, modifyField, Json.toArr, Json.typeIs]
    · rcases hu : u.isEmpty with _ | _ <;>
        simp [includedOf, Product.to_api_data, unit_precision_entry, optTruthy, optStr, relsOf,
          dataOf, Json.hasKey, Json.getObjVal?, lookupField, Json.setKey, setField,
          Json.modifyKey, modifyField, Json.toArr, Json.typeIs, hu,
          ← String.isEmpty_iff]

/-- Witness for C10: concrete default-constructed products carry the block
with unit id `"item"`, and a product with unit `None` omits it. -/
theorem default_unit_item_and_omission_witness :
    (Product.mkDefault "P-1" "Pen").unit = some "item" ∧
    unit_rel_id (unit_precision_entry (.str "item")) = some (.str "item") ∧
    (relsOf (Product.mk "P-2" "Pencil" none (some "in_stock")).to_api_data).hasKey
      "unitPrecisions" = false := by
  have h := default_unit_item_and_omission "P-1" "Pen" (Product.mk "P-2" "Pencil" none (some "in_stock"))
  refine ⟨h.1, h.2.2.2.2.2.1 (unit_precision_entry (.str "item")) ?_ rfl,
    (h.2.2.2.2.2.2.mpr (Or.inl rfl)).1⟩
  show unit_precision_entry (.str "item") ∈
    [.obj [
      ("type", .str "productnames"),
      ("id", .str "names-1"),
      ("attributes", .obj [("fallback", .null), ("string", .str "Pen")]),
      ("relationships", .obj [("localization", .obj [("data", .null)])])],
     unit_precision_entry (.str "item")]
  exact List.mem_cons_of_mem _ (List.mem_singleton_self _)
